import Mathlib

/-!
Shallow embedding of the `gemini_api` repository: two demonstration scripts
(`01_text_generation.py`, `02_conversation.py`) and the helper
`utils/api_config.py`.  Each script is modelled as a pure function from its
external inputs (the `GOOGLE_API_KEY` environment value after `load_dotenv`,
the outcome of the `genai.configure` call, the responses of the remote API, and
the lines available on standard input) to the ordered trace of observable
events it performs plus a process outcome.
-/

namespace GeminiApi

/-- Observable actions performed by the scripts: console output, the calls
into the `google.generativeai` client library, and reads from stdin
(`readInput` also covers the `"You: "` prompt that `input` echoes). -/
inductive Event where
  | print (s : String)
  | configure (key : String)
  | generate (p : String)
  | startChat (history : List String)
  | sendMessage (msg : String)
  | readInput
  deriving DecidableEq

/-- Python truthiness of `os.getenv("GOOGLE_API_KEY")`: `None` and the empty
string are falsy (`if not api_key`), every other string is truthy. -/
def pyTruthy : Option String → Bool
  | none => false
  | some s => s != ""

/-- Embedding of `api_config` from `src/utils/api_config.py`.

`env` is the value of `GOOGLE_API_KEY` in the environment (after
`load_dotenv`); `configureExc` is `some msg` when the external call
`genai.configure(api_key=...)` raises an exception with message `msg`, and
`none` when it returns normally.  The result is the trace of events together
with a flag that is `true` when the function ended the process via `exit()`.

Source behaviour: if the key is missing or empty, a `ValueError` is raised
and caught, its message is printed, and `exit()` ends the process; otherwise
`genai.configure` is called with exactly the key and `"API Key configured."`
is printed; an exception escaping `genai.configure` is caught by the broad
`except Exception` handler, printed, and followed by `exit()`. -/
def api_config (env : Option String) (configureExc : Option String) :
    List Event × Bool :=
  if pyTruthy env then
    match configureExc with
    | none =>
        ([Event.configure (env.getD ""), Event.print "API Key configured."],
          false)
    | some e =>
        ([Event.configure (env.getD ""),
          Event.print ("An unexpected error during configuration: " ++ e)],
          true)
  else
    ([Event.print
        "API key not found. Set the GOOGLE_API_KEY environment variable."],
      true)

/-- How a script run ends: `exited` via `exit()` in `api_config`, `finished`
by reaching the end of the script (or still waiting on stdin), or `uncaught`
when an exception propagates out of the module-level code. -/
inductive Outcome where
  | exited
  | finished
  | uncaught (e : String)
  deriving DecidableEq

/-- Abstraction of the object returned by `model.generate_content`: whether
it is truthy, and its `text` attribute (`none` when `hasattr(response,
"text")` is false). -/
structure PyResponse where
  truthy : Bool
  text : Option String
  deriving DecidableEq

/-- The single fixed prompt of `src/01_text_generation.py`. -/
def fixedPrompt : String :=
  "Write a four-line poem about a curious puppy exploring a garden."

/-- The one line printed for a successfully returned response in
`src/01_text_generation.py`: `response.text` when `response` is truthy and
has a `text` attribute, otherwise the fallback message. -/
def replyEvents (r : PyResponse) : List Event :=
  if r.truthy then
    match r.text with
    | some t => [Event.print t]
    | none => [Event.print "Received an unexpected response format."]
  else
    [Event.print "Received an unexpected response format."]

/-- Embedding of the module-level body of `src/01_text_generation.py`.

`genResult` is the outcome of the external `model.generate_content(prompt)`
call: `Except.error e` when it raises an exception with message `e` (caught
by the broad `except Exception` handler of the script), `Except.ok r` when it
returns the response object `r`. -/
def textGeneration (env : Option String) (configureExc : Option String)
    (genResult : Except String PyResponse) : List Event × Outcome :=
  let cfg := api_config env configureExc
  if cfg.2 then
    (cfg.1, Outcome.exited)
  else
    (cfg.1 ++
      (Event.print "\nSending prompt to Gemini..." ::
        Event.generate fixedPrompt ::
        match genResult with
        | Except.ok r =>
            Event.print "\nGemini\u0027s Response:" :: replyEvents r
        | Except.error e =>
            [Event.print ("\nAn error occurred during generation: " ++ e)]),
      Outcome.finished)

/-- One attempt to read a line in the conversation loop: either `input`
returns the line `s`, or it raises an exception (for example `EOFError` at
end of stdin) with message `e`. -/
inductive InputEvent where
  | line (s : String)
  | ioError (e : String)
  deriving DecidableEq

/-- How the `while True` loop of `src/02_conversation.py` ends:
`quitCmd` via `break` on the quit sentinel, `stdinPending` when the modelled
input stream is exhausted while the loop would still be waiting for input,
or `uncaughtError` when `input()` raised and nothing caught it. -/
inductive Termination where
  | quitCmd
  | stdinPending
  | uncaughtError (e : String)
  deriving DecidableEq

/-- Lower-casing as used in `user_input.lower()` for the sentinel
comparison (ASCII case folding, which is all the `"quit"` comparison
exercises). -/
def pyLower (s : String) : String := String.mk (s.data.map Char.toLower)

/-- Events printed for the result of one `chat.send_message(user_input)`
call: the reply line on success, the caught-exception line on failure. -/
def respEvents (res : Except String String) : List Event :=
  match res with
  | Except.ok t => [Event.print ("\nGemini: " ++ t ++ "\n")]
  | Except.error e => [Event.print ("\nAn error occurred: " ++ e)]

/-- Trace of one non-quit loop iteration on input line `s` whose
`send_message` call produced `res`. -/
def stepEvents (s : String) (res : Except String String) : List Event :=
  Event.readInput :: Event.print "\nGemini thinking..." ::
    Event.sendMessage s :: respEvents res

/-- Embedding of the `while True` loop of `src/02_conversation.py`.

`api k` is the outcome of the `k`-th `chat.send_message` call (counting from
the second loop argument): `Except.ok t` when the `.text` of the returned
response is `t`,
`Except.error e` when the call raises an exception with message `e` (caught
by the `except Exception` handler of the loop, which does not `break`).
`inputs` is the stream of stdin read outcomes.  The `input("You: ")` call
sits outside the `try` block, so an `ioError` ends the loop with an
uncaught exception. -/
def convLoop (api : Nat → Except String String) :
    List InputEvent → Nat → List Event × Termination
  | [], _ => ([], Termination.stdinPending)
  | InputEvent.ioError e :: _, _ =>
      ([Event.readInput], Termination.uncaughtError e)
  | InputEvent.line s :: rest, k =>
      if pyLower s = "quit" then
        ([Event.readInput, Event.print "Ending chat."], Termination.quitCmd)
      else
        (stepEvents s (api k) ++ (convLoop api rest (k + 1)).1,
          (convLoop api rest (k + 1)).2)

/-- Process outcome corresponding to a loop termination. -/
def loopOutcome : Termination → Outcome
  | Termination.uncaughtError e => Outcome.uncaught e
  | _ => Outcome.finished

/-- Embedding of the module-level body of `src/02_conversation.py`:
configure the key, start a chat with an explicitly empty history, print the
banner, then run the loop. -/
def conversation (env : Option String) (configureExc : Option String)
    (inputs : List InputEvent) (api : Nat → Except String String) :
    List Event × Outcome :=
  let cfg := api_config env configureExc
  if cfg.2 then
    (cfg.1, Outcome.exited)
  else
    let l := convLoop api inputs 0
    (cfg.1 ++
      (Event.startChat [] ::
        Event.print
          "Starting chat with Gemini. Type \u0027quit\u0027 to exit." ::
        l.1),
      loopOutcome l.2)

/-- The messages sent to the remote chat, in order, as recorded in a trace. -/
def sentMsgs : List Event → List String
  | [] => []
  | Event.sendMessage m :: r => m :: sentMsgs r
  | Event.print _ :: r => sentMsgs r
  | Event.configure _ :: r => sentMsgs r
  | Event.generate _ :: r => sentMsgs r
  | Event.startChat _ :: r => sentMsgs r
  | Event.readInput :: r => sentMsgs r

/-- The prompts sent through `generate_content`, in order, as recorded in a
trace. -/
def gens : List Event → List String
  | [] => []
  | Event.generate p :: r => p :: gens r
  | Event.print _ :: r => gens r
  | Event.configure _ :: r => gens r
  | Event.sendMessage _ :: r => gens r
  | Event.startChat _ :: r => gens r
  | Event.readInput :: r => gens r

/-- The input lines the loop forwards to the chat: the longest prefix of
lines before the first quit sentinel or read error. -/
def linesRead : List InputEvent → List String
  | [] => []
  | InputEvent.ioError _ :: _ => []
  | InputEvent.line s :: rest =>
      if pyLower s = "quit" then [] else s :: linesRead rest

/-- An input event on which the loop stops forwarding: a quit-sentinel line
or a read error. -/
def stopsLoop : InputEvent → Bool
  | InputEvent.line s => pyLower s = "quit"
  | InputEvent.ioError _ => true

/-- Whether an input event is a read error. -/
def isIoErr : InputEvent → Bool
  | InputEvent.line _ => false
  | InputEvent.ioError _ => true

/-! ### Helper lemmas -/

theorem sentMsgs_append (l1 l2 : List Event) :
    sentMsgs (l1 ++ l2) = sentMsgs l1 ++ sentMsgs l2 := by
  induction l1 with
  | nil => rfl
  | cons e r ih => cases e <;> simp [sentMsgs, ih]

theorem gens_append (l1 l2 : List Event) :
    gens (l1 ++ l2) = gens l1 ++ gens l2 := by
  induction l1 with
  | nil => rfl
  | cons e r ih => cases e <;> simp [gens, ih]

theorem sentMsgs_api_config (env c : Option String) :
    sentMsgs (api_config env c).1 = [] := by
  cases h : pyTruthy env <;> cases c <;> simp [api_config, h, sentMsgs]

theorem gens_api_config (env c : Option String) :
    gens (api_config env c).1 = [] := by
  cases h : pyTruthy env <;> cases c <;> simp [api_config, h, gens]

theorem convLoop_nil (api : Nat → Except String String) (k : Nat) :
    convLoop api [] k = ([], Termination.stdinPending) := rfl

theorem convLoop_ioError (api : Nat → Except String String) (e : String)
    (rest : List InputEvent) (k : Nat) :
    convLoop api (InputEvent.ioError e :: rest) k =
      ([Event.readInput], Termination.uncaughtError e) := rfl

theorem convLoop_line_quit (api : Nat → Except String String) (s : String)
    (rest : List InputEvent) (k : Nat) (h : pyLower s = "quit") :
    convLoop api (InputEvent.line s :: rest) k =
      ([Event.readInput, Event.print "Ending chat."], Termination.quitCmd) := by
  simp [convLoop, h]

theorem convLoop_line_go (api : Nat → Except String String) (s : String)
    (rest : List InputEvent) (k : Nat) (h : ¬ pyLower s = "quit") :
    convLoop api (InputEvent.line s :: rest) k =
      (stepEvents s (api k) ++ (convLoop api rest (k + 1)).1,
        (convLoop api rest (k + 1)).2) := by
  simp [convLoop, h]

theorem sentMsgs_stepEvents (s : String) (res : Except String String) :
    sentMsgs (stepEvents s res) = [s] := by
  cases res <;> simp [stepEvents, respEvents, sentMsgs]

theorem send_mem_stepEvents (m s : String) (res : Except String String)
    (h : Event.sendMessage m ∈ stepEvents s res) : m = s := by
  cases res <;> simp [stepEvents, respEvents] at h <;> exact h

theorem sentMsgs_convLoop (api : Nat → Except String String)
    (inputs : List InputEvent) : ∀ k : Nat,
    sentMsgs (convLoop api inputs k).1 = linesRead inputs := by
  induction inputs with
  | nil => intro k; simp [convLoop_nil, sentMsgs, linesRead]
  | cons ev rest ih =>
    intro k
    cases ev with
    | ioError e => simp [convLoop_ioError, sentMsgs, linesRead]
    | line s =>
      by_cases h : pyLower s = "quit"
      · simp [convLoop_line_quit api s rest k h, sentMsgs, linesRead, h]
      · simp [convLoop_line_go api s rest k h, sentMsgs_append,
          sentMsgs_stepEvents, ih, linesRead, h]

theorem convLoop_no_ioError (api : Nat → Except String String)
    (inputs : List InputEvent) : ∀ (k : Nat) (e : String),
    (∀ ev ∈ inputs, isIoErr ev = false) →
      (convLoop api inputs k).2 ≠ Termination.uncaughtError e := by
  induction inputs with
  | nil => intro k e _; simp [convLoop_nil]
  | cons ev rest ih =>
    intro k e hin
    cases ev with
    | ioError e2 =>
      exact absurd (hin (InputEvent.ioError e2) (by simp)) (by simp [isIoErr])
    | line s =>
      by_cases h : pyLower s = "quit"
      · simp [convLoop_line_quit api s rest k h]
      · simp only [convLoop_line_go api s rest k h]
        exact ih (k + 1) e fun ev hev => hin ev (List.mem_cons_of_mem _ hev)

theorem convLoop_skip (api : Nat → Except String String)
    (pre tail : List InputEvent) : ∀ k : Nat,
    (∀ ev ∈ pre, stopsLoop ev = false) →
      ∃ evs : List Event,
        (convLoop api (pre ++ tail) k).1 =
          evs ++ (convLoop api tail (k + pre.length)).1
        ∧ (convLoop api (pre ++ tail) k).2 =
            (convLoop api tail (k + pre.length)).2
        ∧ sentMsgs evs = linesRead pre
        ∧ ∀ m : String, Event.sendMessage m ∈ evs → InputEvent.line m ∈ pre := by
  induction pre with
  | nil =>
    intro k _
    exact ⟨[], by simp, by simp, rfl, by simp⟩
  | cons ev pre ih =>
    intro k hpre
    cases ev with
    | ioError e =>
      exact absurd (hpre (InputEvent.ioError e) (by simp)) (by simp [stopsLoop])
    | line s =>
      have hs : ¬ pyLower s = "quit" := by
        have h1 := hpre (InputEvent.line s) (by simp)
        simpa [stopsLoop] using h1
      obtain ⟨evs, h1, h2, h3, h4⟩ :=
        ih (k + 1) fun ev2 hev => hpre ev2 (List.mem_cons_of_mem _ hev)
      have hlen : k + (pre.length + 1) = k + 1 + pre.length := by omega
      refine ⟨stepEvents s (api k) ++ evs, ?_, ?_, ?_, ?_⟩
      · simp only [List.cons_append, convLoop_line_go api s (pre ++ tail) k hs,
          h1, List.length_cons, hlen, List.append_assoc]
      · simp only [List.cons_append, convLoop_line_go api s (pre ++ tail) k hs,
          h2, List.length_cons, hlen]
      · simp [sentMsgs_append, sentMsgs_stepEvents, h3, linesRead, hs]
      · intro m hm
        rcases List.mem_append.1 hm with hmem | hmem
        · have hms := send_mem_stepEvents m s (api k) hmem
          simp [hms]
        · exact List.mem_cons_of_mem _ (h4 m hmem)

theorem gens_replyEvents (r : PyResponse) : gens (replyEvents r) = [] := by
  cases h : r.truthy <;> cases ht : r.text <;>
    simp [replyEvents, h, ht, gens]

theorem gens_textGeneration (env cfgExc : Option String)
    (res : Except String PyResponse)
    (h : (api_config env cfgExc).2 = false) :
    gens (textGeneration env cfgExc res).1 = [fixedPrompt] := by
  cases res <;>
    simp [textGeneration, h, gens_append, gens_api_config, gens,
      gens_replyEvents]

/-! ### Claim theorems -/

/-- Claim C1: if the `GOOGLE_API_KEY` environment variable is absent or
empty, `api_config` prints the user-facing message and the process exits
immediately; `genai.configure` is never called, and in both scripts no
request is ever constructed or sent (the full trace of either script is
that single print, and both end in `exited`). -/
theorem c1_missing_key_halts (env cfgExc : Option String)
    (res : Except String PyResponse) (inputs : List InputEvent)
    (api : Nat → Except String String)
    (h : pyTruthy env = false) :
    api_config env cfgExc =
      ([Event.print
          "API key not found. Set the GOOGLE_API_KEY environment variable."],
        true)
    ∧ textGeneration env cfgExc res =
        ([Event.print
            "API key not found. Set the GOOGLE_API_KEY environment variable."],
          Outcome.exited)
    ∧ conversation env cfgExc inputs api =
        ([Event.print
            "API key not found. Set the GOOGLE_API_KEY environment variable."],
          Outcome.exited) := by
  have hc : api_config env cfgExc =
      ([Event.print
          "API key not found. Set the GOOGLE_API_KEY environment variable."],
        true) := by
    simp [api_config, h]
  exact ⟨hc, by simp [textGeneration, hc], by simp [conversation, hc]⟩

/-- Concrete run for C1: the empty-string key is treated as missing. -/
theorem c1_missing_key_halts_witness :
    api_config (some "") none =
      ([Event.print
          "API key not found. Set the GOOGLE_API_KEY environment variable."],
        true) :=
  (c1_missing_key_halts (some "") none (Except.ok ⟨true, some "x"⟩) []
      (fun _ => Except.ok "") rfl).1

/-- Claim C4: with a non-empty key in the environment, `api_config` passes
exactly that string to `genai.configure` as its first observable action (so
the missing-key `ValueError` branch is unreachable), and when the configure
call returns normally it prints `"API Key configured."` and returns without
exiting. -/
theorem c4_valid_key_configures (k : String) (cfgExc : Option String)
    (hk : k ≠ "") :
    (api_config (some k) cfgExc).1.head? = some (Event.configure k)
    ∧ api_config (some k) none =
        ([Event.configure k, Event.print "API Key configured."], false) := by
  have ht : pyTruthy (some k) = true := by simp [pyTruthy, hk]
  exact ⟨by cases cfgExc <;> simp [api_config, ht],
    by simp [api_config, ht]⟩

/-- Concrete run for C4 at the key `"k"`. -/
theorem c4_valid_key_configures_witness :
    api_config (some "k") none =
      ([Event.configure "k", Event.print "API Key configured."], false) :=
  (c4_valid_key_configures "k" none (by decide)).2

/-- Claim C2: when the input stream reaches a quit-sentinel line (after any
prefix of ordinary lines), the loop ends with the quit termination, the
ending message is printed, and no message whose lowercased form is the
sentinel is ever sent to the chat. -/
theorem c2_quit_not_sent (api : Nat → Except String String) (k : Nat)
    (pre rest : List InputEvent) (q m : String)
    (hpre : ∀ ev ∈ pre, stopsLoop ev = false)
    (hq : pyLower q = "quit") :
    (convLoop api (pre ++ InputEvent.line q :: rest) k).2 =
      Termination.quitCmd
    ∧ Event.print "Ending chat." ∈
        (convLoop api (pre ++ InputEvent.line q :: rest) k).1
    ∧ (Event.sendMessage m ∈
          (convLoop api (pre ++ InputEvent.line q :: rest) k).1 →
        pyLower m ≠ "quit") := by
  obtain ⟨evs, h1, h2, h3, h4⟩ :=
    convLoop_skip api pre (InputEvent.line q :: rest) k hpre
  have hquit := convLoop_line_quit api q rest (k + pre.length) hq
  refine ⟨by rw [h2, hquit], by rw [h1, hquit]; simp, ?_⟩
  intro hm
  rw [h1, hquit] at hm
  rcases List.mem_append.1 hm with hmem | hmem
  · have hline := h4 m hmem
    have hstop := hpre (InputEvent.line m) hline
    simpa [stopsLoop] using hstop
  · simp at hmem

/-- Concrete run for C2: the upper-case sentinel `"QUIT"` typed as the very
first input ends the loop at once. -/
theorem c2_quit_not_sent_witness :
    (convLoop (fun _ => Except.ok "ok")
        ([] ++ InputEvent.line "QUIT" :: []) 0).2 =
      Termination.quitCmd :=
  (c2_quit_not_sent (fun _ => Except.ok "ok") 0 [] [] "QUIT" "x"
      (by decide) (by decide)).1

/-- Claim C3: exceptions raised by `generate_content` or `send_message` are
caught at the call site and reported as a printed message, and neither
script lets them escape: the generation script never ends `uncaught`, the
conversation script never ends `uncaught` as long as reading stdin itself
does not raise, and in both scripts the caught exception message is printed. -/
theorem c3_broad_catch (env cfgExc : Option String) (e e2 : String)
    (inputs : List InputEvent) (api : Nat → Except String String)
    (s : String) (rest : List InputEvent) (k : Nat)
    (hin : ∀ ev ∈ inputs, isIoErr ev = false)
    (hcfg : (api_config env cfgExc).2 = false)
    (hs : pyLower s ≠ "quit")
    (he : api k = Except.error e) :
    (textGeneration env cfgExc (Except.error e)).2 ≠ Outcome.uncaught e2
    ∧ Event.print ("\nAn error occurred during generation: " ++ e) ∈
        (textGeneration env cfgExc (Except.error e)).1
    ∧ (conversation env cfgExc inputs api).2 ≠ Outcome.uncaught e2
    ∧ Event.print ("\nAn error occurred: " ++ e) ∈
        (convLoop api (InputEvent.line s :: rest) k).1 := by
  refine ⟨by simp [textGeneration, hcfg], by simp [textGeneration, hcfg], ?_, ?_⟩
  · cases htm : (convLoop api inputs 0).2 with
    | quitCmd => simp [conversation, hcfg, htm, loopOutcome]
    | stdinPending => simp [conversation, hcfg, htm, loopOutcome]
    | uncaughtError e3 =>
      exact absurd htm (convLoop_no_ioError api inputs 0 e3 hin)
  · simp [convLoop_line_go api s rest k hs, stepEvents, respEvents, he]

/-- Concrete run for C3: a raised generation error is reported in the
printed trace. -/
theorem c3_broad_catch_witness :
    Event.print ("\nAn error occurred during generation: " ++ "boom") ∈
      (textGeneration (some "key") none (Except.error "boom")).1 :=
  (c3_broad_catch (some "key") none "boom" "x" [InputEvent.line "hi"]
      (fun _ => Except.error "boom") "hi" [] 0 (by decide) rfl (by decide)
      rfl).2.1

/-- Claim C5: the conversation script starts the chat session with an
explicitly empty history, and the messages it sends are exactly the raw
input lines read before the loop stops, in order — no locally accumulated
transcript is ever sent. -/
theorem c5_no_local_history (env cfgExc : Option String)
    (inputs : List InputEvent) (api : Nat → Except String String)
    (hcfg : (api_config env cfgExc).2 = false) :
    Event.startChat [] ∈ (conversation env cfgExc inputs api).1
    ∧ sentMsgs (conversation env cfgExc inputs api).1 = linesRead inputs := by
  constructor
  · simp [conversation, hcfg]
  · simp [conversation, hcfg, sentMsgs_append, sentMsgs_api_config, sentMsgs,
      sentMsgs_convLoop]

/-- Concrete run for C5: one ordinary line is sent verbatim after an
empty-history chat start. -/
theorem c5_no_local_history_witness :
    Event.startChat [] ∈
      (conversation (some "key") none [InputEvent.line "a"]
        (fun _ => Except.ok "r")).1 :=
  (c5_no_local_history (some "key") none [InputEvent.line "a"]
      (fun _ => Except.ok "r") rfl).1

/-- Claim C6: once configured, the generation script issues exactly one
`generate_content` request, always carrying the fixed prompt; a truthy
response with a `text` attribute has that text printed, a falsy response or
one without `text` gets the fallback message; and no run of the script ever
issues more than one request (no retry). -/
theorem c6_single_request (env cfgExc env2 cfgExc2 : Option String)
    (res res2 : Except String PyResponse) (r2 r3 : PyResponse) (t : String)
    (hcfg : (api_config env cfgExc).2 = false)
    (hr2 : r2.truthy = false)
    (hr3 : r3.text = none) :
    gens (textGeneration env cfgExc res).1 = [fixedPrompt]
    ∧ Event.print t ∈
        (textGeneration env cfgExc (Except.ok ⟨true, some t⟩)).1
    ∧ Event.print "Received an unexpected response format." ∈
        (textGeneration env cfgExc (Except.ok r2)).1
    ∧ Event.print "Received an unexpected response format." ∈
        (textGeneration env cfgExc (Except.ok r3)).1
    ∧ (gens (textGeneration env2 cfgExc2 res2).1).length ≤ 1 := by
  refine ⟨gens_textGeneration env cfgExc res hcfg, ?_, ?_, ?_, ?_⟩
  · simp [textGeneration, hcfg, replyEvents]
  · simp [textGeneration, hcfg, replyEvents, hr2]
  · cases ht : r3.truthy <;>
      simp [textGeneration, hcfg, replyEvents, hr3, ht]
  · cases hx : (api_config env2 cfgExc2).2
    · simp [gens_textGeneration env2 cfgExc2 res2 hx]
    · simp [textGeneration, hx, gens_api_config]

/-- Concrete run for C6: one request with the fixed prompt. -/
theorem c6_single_request_witness :
    gens (textGeneration (some "key") none
        (Except.ok ⟨true, some "poem"⟩)).1 = [fixedPrompt] :=
  (c6_single_request (some "key") none none none
      (Except.ok ⟨true, some "poem"⟩) (Except.error "x") ⟨false, some "y"⟩
      ⟨true, none⟩ "poem" rfl rfl rfl).1

/-- Claim C8: the sentinel comparison is on the lowercased input line: a
line whose lowercased form is `"quit"` ends the loop at once with the
ending message, and any other line is sent to the chat, the loop continuing
on the remaining input. -/
theorem c8_case_insensitive_sentinel (api : Nat → Except String String)
    (rest : List InputEvent) (k : Nat) (s : String) :
    if pyLower s = "quit" then
      convLoop api (InputEvent.line s :: rest) k =
        ([Event.readInput, Event.print "Ending chat."], Termination.quitCmd)
    else
      Event.sendMessage s ∈ (convLoop api (InputEvent.line s :: rest) k).1
      ∧ (convLoop api (InputEvent.line s :: rest) k).2 =
          (convLoop api rest (k + 1)).2 := by
  by_cases h : pyLower s = "quit"
  · simpa [h] using convLoop_line_quit api s rest k h
  · simp only [if_neg h]
    exact ⟨by simp [convLoop_line_go api s rest k h, stepEvents],
      by simp [convLoop_line_go api s rest k h]⟩

/-- Claim C9: an exception raised by `input()` (for example end-of-file) is
not caught: the loop ends with an uncaught error after any prefix of
ordinary lines, only those earlier lines were sent, and the whole
conversation process terminates with that exception uncaught. -/
theorem c9_input_error_uncaught (env cfgExc : Option String)
    (api : Nat → Except String String) (k : Nat)
    (pre rest : List InputEvent) (e : String)
    (hpre : ∀ ev ∈ pre, stopsLoop ev = false)
    (hcfg : (api_config env cfgExc).2 = false) :
    (convLoop api (pre ++ InputEvent.ioError e :: rest) k).2 =
      Termination.uncaughtError e
    ∧ sentMsgs (convLoop api (pre ++ InputEvent.ioError e :: rest) k).1 =
        linesRead pre
    ∧ (conversation env cfgExc (pre ++ InputEvent.ioError e :: rest) api).2 =
        Outcome.uncaught e := by
  obtain ⟨evs, h1, h2, h3, h4⟩ :=
    convLoop_skip api pre (InputEvent.ioError e :: rest) k hpre
  obtain ⟨evs0, g1, g2, g3, g4⟩ :=
    convLoop_skip api pre (InputEvent.ioError e :: rest) 0 hpre
  have ht0 : (convLoop api (pre ++ InputEvent.ioError e :: rest) 0).2 =
      Termination.uncaughtError e := by
    rw [g2, convLoop_ioError]
  refine ⟨by rw [h2, convLoop_ioError], ?_, ?_⟩
  · rw [h1, convLoop_ioError]
    simp [sentMsgs_append, h3, sentMsgs]
  · simp [conversation, hcfg, ht0, loopOutcome]

/-- Concrete run for C9: end-of-file after one ordinary line terminates the
process uncaught. -/
theorem c9_input_error_uncaught_witness :
    (conversation (some "key") none
        ([InputEvent.line "hi"] ++ InputEvent.ioError "EOFError" :: [])
        (fun _ => Except.ok "r")).2 = Outcome.uncaught "EOFError" :=
  (c9_input_error_uncaught (some "key") none (fun _ => Except.ok "r") 0
      [InputEvent.line "hi"] [] "EOFError" (by decide) rfl).2.2

/-- Claim C10: when `send_message` raises, the loop prints the caught error
message and then continues with the remaining input — the iteration
contributes exactly its read, the thinking banner, the send, and the error
print, and the loop result on the rest is unchanged. -/
theorem c10_send_error_continues (api : Nat → Except String String) (k : Nat)
    (s e : String) (rest : List InputEvent)
    (hs : pyLower s ≠ "quit") (he : api k = Except.error e) :
    (convLoop api (InputEvent.line s :: rest) k).1 =
      Event.readInput :: Event.print "\nGemini thinking..." ::
        Event.sendMessage s ::
        Event.print ("\nAn error occurred: " ++ e) ::
        (convLoop api rest (k + 1)).1
    ∧ (convLoop api (InputEvent.line s :: rest) k).2 =
        (convLoop api rest (k + 1)).2 := by
  constructor
  · simp [convLoop_line_go api s rest k hs, stepEvents, respEvents, he]
  · simp [convLoop_line_go api s rest k hs]

/-- Concrete run for C10: a failing send on `"hi"` leaves the loop running
on the remaining (empty) input. -/
theorem c10_send_error_continues_witness :
    (convLoop (fun _ => Except.error "boom") [InputEvent.line "hi"] 0).2 =
      (convLoop (fun _ => Except.error "boom") [] 1).2 :=
  (c10_send_error_continues (fun _ => Except.error "boom") 0 "hi" "boom" []
      (by decide) rfl).2

end GeminiApi
